import Mathlib

/-!
Shallow embedding of `.github/scripts/matrices.py`: the CI matrix generator.

The script reads two environment variables (`EVENT_NAME` and `PROFILE` — the
only `os.environ.get` calls in the file), resolves the active target list,
expands the static case table into concrete job descriptors via three nested
loops, and prints the single JSON document `{"include": expanded}`.

The embedding is a pure function of the environment.  Machine integers do not
occur (all counts are tiny positive Python ints, modelled as `Nat`), and the
f-strings are modelled with `toString` on `Nat`, which agrees with Python's
decimal rendering for the values in range here.
-/

/-- The process environment as the script observes it: the two variables it
reads.  `none` models an absent variable (`os.environ.get` returning `None`). -/
structure Env where
  event_name : Option String
  profile : Option String
deriving DecidableEq

/-- `class Target`: a runner target (GHA runner label, Rust target triple,
SVM solc platform). -/
structure Target where
  runner_label : String
  target : String
  svm_target_platform : String
deriving DecidableEq

/-- `class Case`: a single test suite (name, nextest filter expression, number
of partitions, and whether it runs on non-Linux platforms for PRs). -/
structure Case where
  name : String
  filter : String
  n_partitions : Nat
  pr_cross_platform : Bool
deriving DecidableEq

/-- `class Expanded`: one GHA matrix entry produced by the expansion. -/
structure Expanded where
  name : String
  runner_label : String
  target : String
  svm_target_platform : String
  flags : String
  partition : Nat
deriving DecidableEq

/-- `is_pr = os.environ.get("EVENT_NAME") == "pull_request"`.  An absent
variable yields `none`, which compares unequal to `some "pull_request"`. -/
def is_pr (env : Env) : Bool :=
  env.event_name == some "pull_request"

/-- `t_linux_x86 = Target("ubuntu-latest", "x86_64-unknown-linux-gnu", "linux-amd64")`. -/
def t_linux_x86 : Target :=
  { runner_label := "ubuntu-latest"
    target := "x86_64-unknown-linux-gnu"
    svm_target_platform := "linux-amd64" }

/-- `t_macos = Target("macos-latest", "aarch64-apple-darwin", "macosx-aarch64")`. -/
def t_macos : Target :=
  { runner_label := "macos-latest"
    target := "aarch64-apple-darwin"
    svm_target_platform := "macosx-aarch64" }

/-- `t_windows = Target("windows-latest", "x86_64-pc-windows-msvc", "windows-amd64")`. -/
def t_windows : Target :=
  { runner_label := "windows-latest"
    target := "x86_64-pc-windows-msvc"
    svm_target_platform := "windows-amd64" }

/-- `targets = [t_linux_x86, t_windows] if is_pr else [t_linux_x86, t_macos, t_windows]`. -/
def targets (env : Env) : List Target :=
  if is_pr env then [t_linux_x86, t_windows] else [t_linux_x86, t_macos, t_windows]

/-- First entry of the `config` table. -/
def case_unit : Case :=
  { name := "unit"
    filter := "!kind(test)"
    n_partitions := 1
    pr_cross_platform := true }

/-- Second entry of the `config` table. -/
def case_integration : Case :=
  { name := "integration"
    filter := "kind(test) & !test(/issue|forge_std|ext_integration/)"
    n_partitions := 3
    pr_cross_platform := true }

/-- Third entry of the `config` table. -/
def case_issue_repros : Case :=
  { name := "integration / issue-repros"
    filter := "package(=forge) & test(~issue)"
    n_partitions := 2
    pr_cross_platform := false }

/-- Fourth entry of the `config` table. -/
def case_ext_integration : Case :=
  { name := "integration / external"
    filter := "package(=forge) & test(~ext_integration)"
    n_partitions := 2
    pr_cross_platform := false }

/-- The static `config` list of cases, in declared order. -/
def config : List Case :=
  [case_unit, case_integration, case_issue_repros, case_ext_integration]

/-- `s = f"{partition}/{case.n_partitions}"`: the shard label of one partition. -/
def shard_str (c : Case) (p : Nat) : String :=
  toString p ++ "/" ++ toString c.n_partitions

/-- `os_str`: `f" ({target.target})"` when more than one target is active,
otherwise the empty string. -/
def os_str (env : Env) (t : Target) : String :=
  if (targets env).length > 1 then " (" ++ t.target ++ ")" else ""

/-- The `name` field built by the loop body: `case.name`, then the partition
suffix when `n_partitions > 1`, then `os_str` (appended last, as in the
source). -/
def jobName (env : Env) (t : Target) (c : Case) (p : Nat) : String :=
  c.name ++ (if c.n_partitions > 1 then " (" ++ shard_str c p ++ ")" else "")
    ++ os_str env t

/-- The `flags` field built by the loop body: the filter expression first,
then the partition flag when `n_partitions > 1`, then the isolate-profile
flag when `PROFILE == "isolate"`. -/
def jobFlags (env : Env) (c : Case) (p : Nat) : String :=
  "-E '" ++ c.filter ++ "'"
    ++ (if c.n_partitions > 1 then " --partition count:" ++ shard_str c p else "")
    ++ (if env.profile == some "isolate" then " --features=isolate-by-default" else "")

/-- The `Expanded(...)` record appended for one `(target, case, partition)`
triple. -/
def mkExpanded (env : Env) (t : Target) (c : Case) (p : Nat) : Expanded :=
  { name := jobName env t c p
    runner_label := t.runner_label
    target := t.target
    svm_target_platform := t.svm_target_platform
    flags := jobFlags env c p
    partition := p }

/-- All records the two inner loops append for a fixed `(target, case)` pair:
nothing when the PR skip rule fires (`continue`), otherwise one record per
`partition in range(1, case.n_partitions + 1)`.  Python compares `Target`
objects by identity; the three targets are pairwise distinct records, so
structural equality coincides with identity here. -/
def pairJobs (env : Env) (t : Target) (c : Case) : List Expanded :=
  if is_pr env = true ∧ c.pr_cross_platform = false ∧ t ≠ t_linux_x86 then []
  else (List.range' 1 c.n_partitions).map (mkExpanded env t c)

/-- The full `expanded` list built by `main`: the triple nested loop, target
major, then case, then partition.  `main` prints exactly
`{"include": expanded}`, so this list is the emitted document's payload. -/
def expanded (env : Env) : List Expanded :=
  (targets env).flatMap fun t => config.flatMap fun c => pairJobs env t c

/-- A pull-request environment with no profile set. -/
def prEnv : Env := { event_name := some "pull_request", profile := none }

/-- An environment with both variables absent (push/default run). -/
def pushEnv : Env := { event_name := none, profile := none }

/-- In restricted (PR) mode the active targets are linux then windows. -/
lemma targets_of_pr {env : Env} (h : is_pr env = true) :
    targets env = [t_linux_x86, t_windows] := by
  simp [targets, h]

/-- In unrestricted mode the active targets are linux, macos, windows. -/
lemma targets_of_push {env : Env} (h : is_pr env = false) :
    targets env = [t_linux_x86, t_macos, t_windows] := by
  simp [targets, h]

/-- When the skip rule does not fire, a pair's block is one record per
partition index `1..n_partitions`. -/
lemma pairJobs_of_not_skipped {env : Env} {t : Target} {c : Case}
    (h : ¬(is_pr env = true ∧ c.pr_cross_platform = false ∧ t ≠ t_linux_x86)) :
    pairJobs env t c = (List.range' 1 c.n_partitions).map (mkExpanded env t c) := by
  rw [pairJobs, if_neg h]

/-- The partition fields of a non-skipped block are exactly `1..n_partitions`. -/
lemma pairJobs_map_partition {env : Env} {t : Target} {c : Case}
    (h : ¬(is_pr env = true ∧ c.pr_cross_platform = false ∧ t ≠ t_linux_x86)) :
    (pairJobs env t c).map (fun e => e.partition) = List.range' 1 c.n_partitions := by
  rw [pairJobs_of_not_skipped h, List.map_map]
  have : (fun e : Expanded => e.partition) ∘ mkExpanded env t c = id := by
    funext p; rfl
  rw [this, List.map_id]

/-- C1: for every active target and every case not skipped by the eligibility
rule, the two inner loops produce exactly `n_partitions` records for that
`(target, case)` pair, their `partition` fields are `1..n_partitions` in
order (no gaps or repeats), and the block has no duplicate records. -/
theorem completeness_per_pair (env : Env) (t : Target) (c : Case)
    (ht : t ∈ targets env) (hc : c ∈ config)
    (h : ¬(is_pr env = true ∧ c.pr_cross_platform = false ∧ t ≠ t_linux_x86)) :
    (pairJobs env t c).length = c.n_partitions ∧
    (pairJobs env t c).map (fun e => e.partition) = List.range' 1 c.n_partitions ∧
    (pairJobs env t c).Nodup := by
  refine ⟨?_, pairJobs_map_partition h, ?_⟩
  · rw [pairJobs_of_not_skipped h, List.length_map, List.length_range']
  · refine List.Nodup.of_map (fun e : Expanded => e.partition) ?_
    rw [pairJobs_map_partition h]
    exact List.nodup_range' 1 c.n_partitions

/-- C1 witness: in restricted mode with targets `[linux, windows]`, the
`integration` case (3 partitions, cross-platform) yields exactly 3 records
per target — 6 in total — with the names the spec's example lists. -/
theorem completeness_per_pair_example :
    (pairJobs prEnv t_linux_x86 case_integration).length = 3 ∧
    (pairJobs prEnv t_windows case_integration).length = 3 ∧
    (pairJobs prEnv t_linux_x86 case_integration).map (fun e => e.name)
      = ["integration (1/3) (x86_64-unknown-linux-gnu)",
         "integration (2/3) (x86_64-unknown-linux-gnu)",
         "integration (3/3) (x86_64-unknown-linux-gnu)"] :=
  ⟨(completeness_per_pair prEnv t_linux_x86 case_integration (by decide) (by decide)
      (by decide)).1,
   (completeness_per_pair prEnv t_windows case_integration (by decide) (by decide)
      (by decide)).1,
   by decide⟩

/-- C2: in restricted mode, a non-cross-platform case on a non-primary target
is skipped entirely — its `(target, case)` pair contributes no records, so no
emitted descriptor originates from it. -/
theorem restricted_mode_filtering (env : Env) (t : Target) (c : Case)
    (hpr : is_pr env = true) (hx : c.pr_cross_platform = false)
    (hne : t ≠ t_linux_x86) :
    pairJobs env t c = [] := by
  rw [pairJobs, if_pos ⟨hpr, hx, hne⟩]

/-- C2 witness: on a pull request, the `integration / issue-repros` case
produces nothing for the windows target. -/
theorem restricted_mode_filtering_example :
    pairJobs prEnv t_windows case_issue_repros = [] :=
  restricted_mode_filtering prEnv t_windows case_issue_repros (by decide) (by decide)
    (by decide)

/-- C3: the output is target-major, case-minor, partition-minor: it is the
concatenation, over the active targets in declared order, of the
concatenation over the cases in declared order of that pair's block; and
within each block the partition indices are strictly increasing, so each
case's partitions are contiguous and ordered. -/
theorem output_ordering (env : Env) :
    expanded env
      = ((targets env).map fun t => (config.map fun c => pairJobs env t c).flatten).flatten ∧
    ∀ t c, List.Pairwise (fun a b => a < b)
      ((pairJobs env t c).map fun e => e.partition) := by
  constructor
  · simp only [expanded, List.flatMap_def]
  · intro t c
    by_cases h : is_pr env = true ∧ c.pr_cross_platform = false ∧ t ≠ t_linux_x86
    · rw [pairJobs, if_pos h]
      exact List.Pairwise.nil
    · rw [pairJobs_map_partition h]
      exact List.pairwise_lt_range' 1 c.n_partitions

/-- The windows PR block of the config: 1 (unit) + 3 (integration) records,
the two non-cross-platform cases skipped. -/
lemma length_config_windows_pr {env : Env} (h : is_pr env = true) :
    (config.flatMap fun c => pairJobs env t_windows c).length = 4 := by
  have hne : t_windows ≠ t_linux_x86 := by decide
  simp [config, pairJobs, h, hne, case_unit, case_integration, case_issue_repros,
    case_ext_integration, List.length_range']

/-- Any target's unrestricted block, and linux's PR block: all four cases
contribute, 1 + 3 + 2 + 2 = 8 records. -/
lemma length_config_all_cases {env : Env} {t : Target}
    (h : ¬ is_pr env = true ∨ t = t_linux_x86) :
    (config.flatMap fun c => pairJobs env t c).length = 8 := by
  rcases h with h | h
  · rw [Bool.not_eq_true] at h
    simp [config, pairJobs, h, case_unit, case_integration, case_issue_repros,
      case_ext_integration, List.length_range']
  · subst h
    simp [config, pairJobs, case_unit, case_integration, case_issue_repros,
      case_ext_integration, List.length_range']

/-- The output has 12 records on a pull request and 24 otherwise. -/
lemma length_expanded (env : Env) :
    (expanded env).length = if is_pr env then 12 else 24 := by
  by_cases h : is_pr env = true
  · rw [expanded, targets_of_pr h, if_pos h]
    simp only [List.flatMap_cons, List.flatMap_nil, List.append_nil, List.length_append]
    rw [length_config_all_cases (Or.inr rfl), length_config_windows_pr h]
  · rw [Bool.not_eq_true] at h
    rw [expanded, targets_of_push h, if_neg (by simp [h])]
    simp only [List.flatMap_cons, List.flatMap_nil, List.append_nil, List.length_append]
    rw [length_config_all_cases (Or.inl (by simp [h])),
      length_config_all_cases (Or.inl (by simp [h])),
      length_config_all_cases (Or.inl (by simp [h]))]

/-- C5: for every record the loop body can emit, the flags string begins
with `-E '` followed by the case's filter expression and a closing quote;
the name carries the ` (i/n)` partition suffix, and the flags the
` --partition count:i/n` flag, exactly when `n_partitions > 1`; and the name
ends in the ` (compile_target)` platform suffix exactly when more than one
target is active. -/
theorem name_and_flag_formatting (env : Env) (t : Target) (c : Case) (p : Nat) :
    (∃ rest, (mkExpanded env t c p).flags = "-E '" ++ c.filter ++ "'" ++ rest) ∧
    (c.n_partitions > 1 →
      (∃ pre post, (mkExpanded env t c p).name = pre ++ (" (" ++ shard_str c p ++ ")") ++ post) ∧
      (∃ pre post, (mkExpanded env t c p).flags
          = pre ++ (" --partition count:" ++ shard_str c p) ++ post)) ∧
    (¬ c.n_partitions > 1 →
      (mkExpanded env t c p).name = c.name ++ os_str env t ∧
      (mkExpanded env t c p).flags
        = "-E '" ++ c.filter ++ "'"
            ++ (if env.profile == some "isolate" then " --features=isolate-by-default" else "")) ∧
    ((targets env).length > 1 →
      ∃ pre, (mkExpanded env t c p).name = pre ++ (" (" ++ t.target ++ ")")) ∧
    (¬ (targets env).length > 1 →
      (mkExpanded env t c p).name
        = c.name ++ (if c.n_partitions > 1 then " (" ++ shard_str c p ++ ")" else "")) := by
  refine ⟨?_, fun hn => ⟨?_, ?_⟩, fun hn => ⟨?_, ?_⟩, fun ht => ?_, fun ht => ?_⟩
  · exact ⟨(if c.n_partitions > 1 then " --partition count:" ++ shard_str c p else "")
        ++ (if env.profile == some "isolate" then " --features=isolate-by-default" else ""),
      by rw [mkExpanded, jobFlags, String.append_assoc]⟩
  · exact ⟨c.name, os_str env t, by rw [mkExpanded, jobName, if_pos hn]⟩
  · exact ⟨"-E '" ++ c.filter ++ "'",
      (if env.profile == some "isolate" then " --features=isolate-by-default" else ""),
      by rw [mkExpanded, jobFlags, if_pos hn]⟩
  · rw [mkExpanded, jobName, if_neg hn, String.append_empty]
  · rw [mkExpanded, jobFlags, if_neg hn, String.append_empty]
  · exact ⟨c.name ++ (if c.n_partitions > 1 then " (" ++ shard_str c p ++ ")" else ""),
      by rw [mkExpanded, jobName, os_str, if_pos ht]⟩
  · rw [mkExpanded, jobName, os_str, if_neg ht, String.append_empty]

/-- C5 witness: in an unrestricted run (3 active targets), partition 2 of the
`integration` case shows the partition suffix, the partition flag, the
platform suffix and the leading filter flag at once. -/
theorem name_and_flag_formatting_example :
    (∃ pre post, (mkExpanded pushEnv t_linux_x86 case_integration 2).name
        = pre ++ (" (" ++ shard_str case_integration 2 ++ ")") ++ post) ∧
    (∃ pre, (mkExpanded pushEnv t_linux_x86 case_integration 2).name
        = pre ++ (" (" ++ t_linux_x86.target ++ ")")) ∧
    (∃ rest, (mkExpanded pushEnv t_linux_x86 case_integration 2).flags
        = "-E '" ++ case_integration.filter ++ "'" ++ rest) :=
  ⟨((name_and_flag_formatting pushEnv t_linux_x86 case_integration 2).2.1 (by decide)).1,
   (name_and_flag_formatting pushEnv t_linux_x86 case_integration 2).2.2.2.1 (by decide),
   (name_and_flag_formatting pushEnv t_linux_x86 case_integration 2).1⟩

/-- C6: restricted mode holds exactly when `EVENT_NAME` is the exact string
`pull_request`; an absent variable (and hence any unrecognized value) selects
unrestricted mode, and the selection is a total function — never fatal. -/
theorem restricted_mode_selection (env : Env) :
    (is_pr env = true ↔ env.event_name = some "pull_request") ∧
    (env.event_name = none → is_pr env = false) := by
  constructor
  · simp [is_pr]
  · intro h
    simp [is_pr, h]

/-- C6 witness: absent and non-matching values give unrestricted mode, the
exact value `pull_request` gives restricted mode. -/
theorem restricted_mode_selection_example :
    is_pr pushEnv = false ∧
    is_pr { event_name := some "push", profile := none } = false ∧
    is_pr prEnv = true :=
  ⟨(restricted_mode_selection pushEnv).2 rfl, by decide,
   (restricted_mode_selection prEnv).1.mpr rfl⟩

/-- C7: when `PROFILE` is exactly `isolate`, every record's flags equal the
flags of the same record under an unset `PROFILE` with
` --features=isolate-by-default` appended at the end (after the filter and
partition flags); when `PROFILE` is anything else, the flags are unchanged. -/
theorem profile_flag_appending (env : Env) (t : Target) (c : Case) (p : Nat) :
    (env.profile = some "isolate" →
      (mkExpanded env t c p).flags
        = (mkExpanded { event_name := env.event_name, profile := none } t c p).flags
            ++ " --features=isolate-by-default") ∧
    (env.profile ≠ some "isolate" →
      (mkExpanded env t c p).flags
        = (mkExpanded { event_name := env.event_name, profile := none } t c p).flags) := by
  constructor
  · intro h
    show jobFlags env c p = jobFlags _ c p ++ _
    simp [jobFlags, h]
  · intro h
    show jobFlags env c p = jobFlags _ c p
    simp [jobFlags, beq_eq_false_iff_ne.mpr h]

/-- C7 witness: with `PROFILE=isolate`, partition 1 of the `unit` case gets
exactly the fixed extra flag appended; with `PROFILE` unset nothing changes. -/
theorem profile_flag_appending_example :
    (mkExpanded { event_name := none, profile := some "isolate" } t_linux_x86 case_unit 1).flags
      = (mkExpanded pushEnv t_linux_x86 case_unit 1).flags ++ " --features=isolate-by-default" :=
  (profile_flag_appending { event_name := none, profile := some "isolate" }
    t_linux_x86 case_unit 1).1 rfl

/-- C8: the expansion is deterministic — it is a pure function of the two
environment inputs, so any two invocations that observe the same
`EVENT_NAME` and `PROFILE` values produce the same descriptor list, field
for field and in the same order. -/
theorem expansion_deterministic (e₁ e₂ : Env)
    (h1 : e₁.event_name = e₂.event_name) (h2 : e₁.profile = e₂.profile) :
    expanded e₁ = expanded e₂ := by
  have h : e₁ = e₂ := by
    cases e₁
    cases e₂
    simp_all
  rw [h]

/-- C8 witness: two invocations under the same concrete environment agree. -/
theorem expansion_deterministic_example :
    expanded { event_name := some "pull_request", profile := some "isolate" }
      = expanded { event_name := some "pull_request", profile := some "isolate" } :=
  expansion_deterministic _ _ rfl rfl

/-- C9: the profile match is exact and case-sensitive — any `PROFILE` value
other than the exact string `isolate` (absent, `ISOLATE`, padded, …) yields
output identical to an unset `PROFILE`; only the exact value changes any
flag string. -/
theorem profile_match_exact (env : Env) (h : env.profile ≠ some "isolate") :
    expanded env = expanded { event_name := env.event_name, profile := none } := by
  have hb : (env.profile == some "isolate") = false := beq_eq_false_iff_ne.mpr h
  have hm : ∀ (t : Target) (c : Case),
      mkExpanded env t c = mkExpanded { event_name := env.event_name, profile := none } t c := by
    intro t c
    funext p
    simp [mkExpanded, jobFlags, jobName, os_str, targets, is_pr, hb]
  simp [expanded, pairJobs, targets, is_pr, hm]

/-- C9 witness: `PROFILE=ISOLATE` (wrong case) produces exactly the output of
an unset `PROFILE`. -/
theorem profile_match_exact_example :
    expanded { event_name := none, profile := some "ISOLATE" } = expanded pushEnv :=
  profile_match_exact { event_name := none, profile := some "ISOLATE" } (by decide)

/-- C10: under the static tables both modes activate at least two targets, so
every emitted record's name ends in a platform suffix; the output totals are
24 records in unrestricted mode and 12 in restricted mode — 8 for the primary
Linux target plus 4 for Windows, the two non-cross-platform cases being
skipped there. -/
theorem static_config_totals (env : Env) :
    2 ≤ (targets env).length ∧
    (∀ e ∈ expanded env, ∃ t ∈ targets env,
      ∃ pre, e.name = pre ++ (" (" ++ t.target ++ ")")) ∧
    (is_pr env = false → (expanded env).length = 24) ∧
    (is_pr env = true →
      (expanded env).length = 12 ∧
      (config.flatMap fun c => pairJobs env t_linux_x86 c).length = 8 ∧
      (config.flatMap fun c => pairJobs env t_windows c).length = 4) := by
  have h2 : 1 < (targets env).length := by
    by_cases h : is_pr env = true
    · rw [targets_of_pr h]
      decide
    · rw [Bool.not_eq_true] at h
      rw [targets_of_push h]
      decide
  refine ⟨h2, ?_, ?_, ?_⟩
  · intro e he
    simp only [expanded, List.mem_flatMap] at he
    obtain ⟨t, ht, c, hc, he⟩ := he
    by_cases hskip : is_pr env = true ∧ c.pr_cross_platform = false ∧ t ≠ t_linux_x86
    · rw [pairJobs, if_pos hskip] at he
      cases he
    · rw [pairJobs_of_not_skipped hskip, List.mem_map] at he
      obtain ⟨p, hp, rfl⟩ := he
      refine ⟨t, ht,
        c.name ++ (if c.n_partitions > 1 then " (" ++ shard_str c p ++ ")" else ""), ?_⟩
      show jobName env t c p = _
      rw [jobName, os_str, if_pos h2]
  · intro h
    rw [length_expanded, if_neg (by simp [h])]
  · intro h
    refine ⟨?_, length_config_all_cases (Or.inr rfl), length_config_windows_pr h⟩
    rw [length_expanded, if_pos h]

/-- C10 witness: the concrete totals at both modes — 24 records on a push,
12 on a pull request split 8 (linux) + 4 (windows). -/
theorem static_config_totals_example :
    (expanded pushEnv).length = 24 ∧
    (expanded prEnv).length = 12 ∧
    (config.flatMap fun c => pairJobs prEnv t_linux_x86 c).length = 8 ∧
    (config.flatMap fun c => pairJobs prEnv t_windows c).length = 4 :=
  ⟨(static_config_totals pushEnv).2.2.1 rfl,
   ((static_config_totals prEnv).2.2.2 rfl).1,
   ((static_config_totals prEnv).2.2.2 rfl).2.1,
   ((static_config_totals prEnv).2.2.2 rfl).2.2⟩

/-- C4 counterexample: with every environment variable absent — so in
particular with any output-mode toggle unset — the script emits the full
24-job case expansion, not the 3-entry platform list: the claimed
platform-list default does not exist in the code, whose only reads of the
environment are `EVENT_NAME` and `PROFILE` and whose only output statement
prints `{"include": expanded}`. -/
theorem default_output_not_platform_list :
    (expanded pushEnv).length = 24 ∧
    (targets pushEnv).length = 3 ∧
    ¬ (expanded pushEnv).length = (targets pushEnv).length := by
  have h24 : (expanded pushEnv).length = 24 := by
    rw [length_expanded]; rfl
  refine ⟨h24, rfl, ?_⟩
  rw [h24]
  decide

/-- C4 (amended): the script has no output-mode toggle; for every
environment it emits the full job-list expansion (12 or 24 records), which
is always strictly larger than the active platform list, so the
platform-list-only mode never occurs. -/
theorem output_always_full_job_list (env : Env) :
    (expanded env).length = (if is_pr env then 12 else 24) ∧
    (targets env).length < (expanded env).length := by
  refine ⟨length_expanded env, ?_⟩
  rw [length_expanded env]
  by_cases h : is_pr env = true
  · rw [targets_of_pr h, if_pos h]
    decide
  · rw [Bool.not_eq_true] at h
    rw [targets_of_push h, if_neg (by simp [h])]
    decide
